import Mathlib

/-
  Verification of the CyberSecurity-Analysis-Platform backend
  (src/backend/server.py) against its specification.

  The embedding models the analysis orchestration pipeline of the
  `/api/analyze` endpoint: request validation, credential checking,
  the scoped tool-server (semgrep MCP server) lifecycle, the backend
  invocation, structured-output validation (the pydantic models
  SecurityIssue / SecurityReport), summary enrichment, and the
  top-level catch-all that maps every exception to a uniform
  HTTP 500 error.

  External I/O (the semgrep server, the Gemini backend call) is
  modelled by an oracle (`World`) giving the outcome of each
  suspension point: success with a raw reply, an exception, or
  cancellation.  The pipeline additionally records a trace of the
  steps it performed, so that claims about ordering, about steps not
  being attempted, and about release-on-every-path can be stated.
-/

namespace CyberSec

/-- Python's ASCII whitespace characters, as stripped by `str.strip()`
(the embedding restricts to the ASCII subset of Python's Unicode
whitespace, which is what matters for the claims). -/
def pyIsSpace (c : Char) : Bool :=
  c = ' ' || c = '\t' || c = '\n' || c = '\r' || c = '\x0b' || c = '\x0c'

/-- `str.strip()` on a list of characters: drop leading and trailing
whitespace. -/
def pyStripList (l : List Char) : List Char :=
  ((l.dropWhile pyIsSpace).reverse.dropWhile pyIsSpace).reverse

/-- Python `str.strip()` with no arguments. -/
def pyStrip (s : String) : String :=
  String.mk (pyStripList s.toList)

/-- A process environment, as read by `os.getenv`: `none` means the
variable is unset. -/
def Env : Type := String → Option String

/-- Python truthiness test `not os.getenv(k)`: true when the variable
is unset (`None`) or set to the empty string (both are falsy). -/
def envFalsy (env : Env) (k : String) : Bool :=
  match env k with
  | none => true
  | some v => v = ""

/-- A Python exception as it flows through the handler: either a
`fastapi.HTTPException` (status code and detail) or a generic
exception carrying a message. -/
inductive PyErr : Type
  | http (status : Nat) (detail : String)
  | exc (msg : String)
  deriving DecidableEq

/-- Python `str(e)` on an exception: starlette's `HTTPException.__str__`
renders `"{status_code}: {detail}"`; a generic exception renders its
message. -/
def strOfErr : PyErr → String
  | .http s d => toString s ++ ": " ++ d
  | .exc m => m

/-- `class AnalyzeRequest(BaseModel): code: str` (server.py:43-44). -/
structure AnalyzeRequest : Type where
  code : String
  deriving DecidableEq

/-- `class SecurityIssue(BaseModel)` (server.py:47-57).  The pydantic
model declares `cvss_score: float` and `severity: str` with
descriptive `Field(description=...)` texts only: the field
descriptions document the range [0.0, 10.0] and the enumeration
{critical, high, medium, low}, but the model attaches no `ge`/`le`
bound and no `Literal`/enum type, so pydantic enforces neither.
Scores are embedded as rationals (the code never computes with them,
it only passes them through). -/
structure SecurityIssue : Type where
  title : String
  description : String
  code : String
  fix : String
  cvss_score : ℚ
  severity : String
  deriving DecidableEq

/-- `class SecurityReport(BaseModel)` (server.py:60-62). -/
structure SecurityReport : Type where
  summary : String
  issues : List SecurityIssue
  deriving DecidableEq

/-- The backend's raw structured reply for one issue, before pydantic
validation: each field may be absent. -/
structure RawIssue : Type where
  title : Option String
  description : Option String
  code : Option String
  fix : Option String
  cvss_score : Option ℚ
  severity : Option String
  deriving DecidableEq

/-- The backend's raw structured reply for a report, before pydantic
validation. -/
structure RawReport : Type where
  summary : Option String
  issues : Option (List RawIssue)
  deriving DecidableEq

/-- Pydantic validation of one `SecurityIssue`: every declared field is
required (none has a default), and no further constraint is checked —
in particular no range check on `cvss_score` and no membership check
on `severity`, faithful to the model declaration at server.py:47-57. -/
def validateIssue (i : RawIssue) : Except String SecurityIssue :=
  match i.title, i.description, i.code, i.fix, i.cvss_score, i.severity with
  | some t, some d, some c, some f, some s, some sev =>
      .ok { title := t, description := d, code := c, fix := f,
            cvss_score := s, severity := sev }
  | _, _, _, _, _, _ => .error "field required"

/-- Pydantic validation of a list of issues: all must validate. -/
def validateIssues : List RawIssue → Except String (List SecurityIssue)
  | [] => .ok []
  | i :: is =>
    match validateIssue i, validateIssues is with
    | .ok v, .ok vs => .ok (v :: vs)
    | .error m, _ => .error m
    | _, .error m => .error m

/-- Pydantic validation of a `SecurityReport` reply: `summary` and
`issues` are required and every issue must validate.  This is the
structured-output validation the agents SDK performs against
`output_type=SecurityReport` inside `Runner.run` (server.py:84,93-94). -/
def validateReport (r : RawReport) : Except String SecurityReport :=
  match r.summary, r.issues with
  | some s, some is =>
    match validateIssues is with
    | .ok vs => .ok { summary := s, issues := vs }
    | .error m => .error m
  | _, _ => .error "field required"

/-- `validate_request` (server.py:65-68): raise
`HTTPException(400, "No code provided for analysis")` when
`request.code.strip()` is falsy, i.e. empty. -/
def validate_request (req : AnalyzeRequest) : Except PyErr Unit :=
  if pyStrip req.code = "" then
    .error (.http 400 "No code provided for analysis")
  else
    .ok ()

/-- `check_api_keys` (server.py:71-74): raise
`HTTPException(500, "Gemini API key not configured")` when
`os.getenv("GEMINI_API_KEY")` is falsy — unset or the empty string. -/
def check_api_keys (env : Env) : Except PyErr Unit :=
  if envFalsy env "GEMINI_API_KEY" then
    .error (.http 500 "Gemini API key not configured")
  else
    .ok ()

/-- server.py:18. -/
def GEMINI_BASE_URL : String :=
  "https://generativelanguage.googleapis.com/v1beta/openai/"

/-- The `AsyncOpenAI` client value: base URL and the api key it was
constructed with. -/
structure AsyncOpenAIClient : Type where
  base_url : String
  api_key : Option String
  deriving DecidableEq

/-- Module-level construction at import time (server.py:17-19):
`google_api_key = os.getenv("GEMINI_API_KEY")` captured from the
environment as it was at import, then
`gemini_client = AsyncOpenAI(base_url=GEMINI_BASE_URL, api_key=google_api_key)`. -/
def gemini_client (importEnv : Env) : AsyncOpenAIClient :=
  { base_url := GEMINI_BASE_URL, api_key := importEnv "GEMINI_API_KEY" }

/-- The configured agent (server.py:77-85): name, number of attached
MCP servers; instructions, model and output schema are process-wide
constants not needed by any claim. -/
structure Agent : Type where
  name : String
  mcp_server_count : Nat
  deriving DecidableEq

/-- `create_security_agent` (server.py:77-85). -/
def create_security_agent (_semgrep : Unit) : Agent :=
  { name := "Security Researcher", mcp_server_count := 1 }

/-- Modelled from the spec: `enhance_summary` lives in context.py,
which is not under src/.  Per §4.5 it is a pure deterministic function
`enrich(originalCodeLength, rawSummary) -> text` appending a
length-derived contextual qualifier to the backend-produced summary. -/
def enhance_summary (codeLength : Nat) (summary : String) : String :=
  summary ++ " (analysis of " ++ toString codeLength ++ " characters of code)"

/-- `format_analysis_response` (server.py:97-100): rebuild the report
with the enriched summary and the issues list passed through
unchanged. -/
def format_analysis_response (code : String) (report : SecurityReport) : SecurityReport :=
  { summary := enhance_summary code.length report.summary,
    issues := report.issues }

/-- Outcome of one suspension point (an awaited call): it returns a
value, raises an exception with a message, or is cancelled by the
surrounding transport (`asyncio.CancelledError`, which derives from
`BaseException` and is not caught by `except Exception`). -/
inductive StepOutcome (α : Type) : Type
  | ok (a : α)
  | error (msg : String)
  | cancelled
  deriving DecidableEq

/-- The oracle for one request's external world: the environment at
request time, the outcome of the semgrep tool-server acquisition
(`create_semgrep_server().__aenter__`), and the outcome of the backend
invocation `Runner.run` (whose value, when it returns, is the raw
structured reply prior to schema validation). -/
structure World : Type where
  env : Env
  acquire : StepOutcome Unit
  invoke : StepOutcome RawReport

/-- The observable steps of one request, recorded in execution order.
`acquire` is the attempt to enter the tool-server scope; `release` is
the run of its `__aexit__`. -/
inductive Ev : Type
  | checkKeys
  | validate
  | acquire
  | build
  | invoke
  | validateOut
  | release
  | enrich
  deriving DecidableEq

/-- Result of the body of the `try:` block: a report, an exception, or
cancellation propagating. -/
inductive PipeRes : Type
  | ok (r : SecurityReport)
  | error (e : PyErr)
  | cancelled
  deriving DecidableEq

/-- `run_security_analysis` (server.py:88-94): enter the semgrep
tool-server scope (`async with create_semgrep_server()`), build the
agent, run it, and validate the final output against `SecurityReport`.
The `async with` guarantees `__aexit__` (release) runs on normal exit,
on an exception from the body, and on cancellation; if `__aenter__`
itself fails or is cancelled, there is nothing to release. -/
def run_security_analysis (w : World) (_code : String) : List Ev × PipeRes :=
  match w.acquire with
  | .error m => ([.acquire], .error (.exc m))
  | .cancelled => ([.acquire], .cancelled)
  | .ok h =>
    let _agent := create_security_agent h
    match w.invoke with
    | .error m => ([.acquire, .build, .invoke, .release], .error (.exc m))
    | .cancelled => ([.acquire, .build, .invoke, .release], .cancelled)
    | .ok raw =>
      match validateReport raw with
      | .error m => ([.acquire, .build, .invoke, .validateOut, .release], .error (.exc m))
      | .ok rep => ([.acquire, .build, .invoke, .validateOut, .release], .ok rep)

/-- The body of the `try:` block of `analyze_code` (server.py:106-109):
`check_api_keys()`, `validate_request(request)`,
`await run_security_analysis(request.code)`,
`format_analysis_response(request.code, report)`. -/
def analyze_pipeline (w : World) (req : AnalyzeRequest) : List Ev × PipeRes :=
  match check_api_keys w.env with
  | .error e => ([.checkKeys], .error e)
  | .ok _ =>
    match validate_request req with
    | .error e => ([.checkKeys, .validate], .error e)
    | .ok _ =>
      let res := run_security_analysis w req.code
      match res.2 with
      | .ok rep =>
        ([.checkKeys, .validate] ++ res.1 ++ [.enrich],
         .ok (format_analysis_response req.code rep))
      | .error e => ([.checkKeys, .validate] ++ res.1, .error e)
      | .cancelled => ([.checkKeys, .validate] ++ res.1, .cancelled)

/-- What the caller of `/api/analyze` observes: a report, an HTTP error
(status code and detail), or the request's cancellation. -/
inductive Outcome : Type
  | ok (r : SecurityReport)
  | err (status : Nat) (detail : String)
  | cancelled
  deriving DecidableEq

/-- `analyze_code` (server.py:103-115): run the pipeline inside
`try:`; `except Exception as e:` catches every exception — including
the `HTTPException`s raised by `check_api_keys` and `validate_request`
— and re-raises `HTTPException(500, "Analysis failed: " + str(e))`.
Cancellation (`asyncio.CancelledError`) is a `BaseException` and
propagates uncaught. -/
def analyze_code (w : World) (req : AnalyzeRequest) : List Ev × Outcome :=
  match analyze_pipeline w req with
  | (tr, .ok r) => (tr, .ok r)
  | (tr, .error e) => (tr, .err 500 ("Analysis failed: " ++ strOfErr e))
  | (tr, .cancelled) => (tr, .cancelled)

/-- The full step order of a successful request. -/
def canonicalOrder : List Ev :=
  [.checkKeys, .validate, .acquire, .build, .invoke, .validateOut, .release, .enrich]

/-- A raw issue with a field absent: pydantic must reject it. -/
def rawIssueMissing (i : RawIssue) : Bool :=
  i.title.isNone || i.description.isNone || i.code.isNone ||
  i.fix.isNone || i.cvss_score.isNone || i.severity.isNone

/-- A raw report with some mandatory field absent: the `summary` or
`issues` field itself, or a field of some issue. -/
def rawReportMissing (r : RawReport) : Bool :=
  r.summary.isNone || r.issues.isNone || (r.issues.getD []).any rawIssueMissing

/- Concrete fixtures for witnesses and counterexamples. -/

/-- An environment with the Gemini key set to a non-empty value. -/
def envWithKey : Env := fun k => if k = "GEMINI_API_KEY" then some "token" else none

/-- An environment with the Gemini key unset. -/
def envNoKey : Env := fun _ => none

/-- An environment with the Gemini key set to the empty string. -/
def envEmptyKey : Env := fun k => if k = "GEMINI_API_KEY" then some "" else none

/-- The rational 9.8 (= 49/5), built by constructor so that kernel
evaluation does not need rational normalization. -/
def cvss_nine_eight : ℚ := ⟨49, 5, by decide, by decide⟩

/-- A well-formed backend reply with one issue. -/
def goodIssueRaw : RawIssue :=
  { title := some "Arbitrary code execution",
    description := some "eval on user input",
    code := some "eval(input())",
    fix := some "avoid eval",
    cvss_score := some cvss_nine_eight,
    severity := some "critical" }

/-- The validated form of `goodIssueRaw`. -/
def goodIssue : SecurityIssue :=
  { title := "Arbitrary code execution",
    description := "eval on user input",
    code := "eval(input())",
    fix := "avoid eval",
    cvss_score := cvss_nine_eight,
    severity := "critical" }

/-- A well-formed backend reply. -/
def goodReportRaw : RawReport :=
  { summary := some "one issue found", issues := some [goodIssueRaw] }

/-- The validated form of `goodReportRaw`. -/
def goodReport : SecurityReport :=
  { summary := "one issue found", issues := [goodIssue] }

/-- A backend reply whose issue carries an out-of-range score and a
severity outside the documented enumeration. -/
def outOfRangeIssueRaw : RawIssue :=
  { title := some "Weird finding",
    description := some "desc",
    code := some "x",
    fix := some "y",
    cvss_score := some (11 : ℚ),
    severity := some "informational" }

/-- A backend reply carrying `outOfRangeIssueRaw`. -/
def outOfRangeReportRaw : RawReport :=
  { summary := some "bad reply", issues := some [outOfRangeIssueRaw] }

/-- A backend reply whose issue is missing its `fix` field. -/
def missingFixReportRaw : RawReport :=
  { summary := some "s",
    issues := some [{ goodIssueRaw with fix := none }] }

/-- A world where everything succeeds. -/
def wOK : World :=
  { env := envWithKey, acquire := .ok (), invoke := .ok goodReportRaw }

/-- A world whose environment lacks the Gemini key. -/
def wNoKey : World :=
  { env := envNoKey, acquire := .ok (), invoke := .ok goodReportRaw }

/- Helper lemmas about `str.strip()`. -/

theorem dropWhile_pyIsSpace_nil_iff (l : List Char) :
    l.dropWhile pyIsSpace = [] ↔ ∀ c ∈ l, pyIsSpace c :=
  List.dropWhile_eq_nil_iff

theorem pyStripList_eq_nil_iff (l : List Char) :
    pyStripList l = [] ↔ ∀ c ∈ l, pyIsSpace c := by
  unfold pyStripList
  rw [List.reverse_eq_nil_iff, List.dropWhile_eq_nil_iff]
  constructor
  · intro h c hc
    rcases List.mem_append.mp
        ((List.takeWhile_append_dropWhile pyIsSpace l) ▸ hc) with h1 | h1
    · exact List.mem_takeWhile_imp h1
    · exact h c (List.mem_reverse.mpr h1)
  · intro h c hc
    exact h c (List.Sublist.mem (List.mem_reverse.mp hc) (List.dropWhile_sublist pyIsSpace))

theorem pyStrip_eq_empty_iff (s : String) :
    pyStrip s = "" ↔ ∀ c ∈ s.toList, pyIsSpace c := by
  unfold pyStrip
  rw [show ("" : String) = String.mk [] from rfl]
  constructor
  · intro h
    exact (pyStripList_eq_nil_iff s.toList).mp (by injection h)
  · intro h
    rw [(pyStripList_eq_nil_iff s.toList).mpr h]

/- Branch lemmas: the value of `analyze_code` on each of its paths. -/

theorem analyze_eq_of_key_falsy (w : World) (req : AnalyzeRequest)
    (hk : envFalsy w.env "GEMINI_API_KEY" = true) :
    analyze_code w req =
      ([.checkKeys],
       .err 500 ("Analysis failed: " ++ strOfErr (.http 500 "Gemini API key not configured"))) := by
  simp [analyze_code, analyze_pipeline, check_api_keys, hk]

theorem analyze_eq_of_blank_code (w : World) (req : AnalyzeRequest)
    (hk : envFalsy w.env "GEMINI_API_KEY" = false) (hv : pyStrip req.code = "") :
    analyze_code w req =
      ([.checkKeys, .validate],
       .err 500 ("Analysis failed: " ++ strOfErr (.http 400 "No code provided for analysis"))) := by
  simp [analyze_code, analyze_pipeline, check_api_keys, validate_request, hk, hv]

theorem analyze_eq_of_acquire_error (w : World) (req : AnalyzeRequest) (m : String)
    (hk : envFalsy w.env "GEMINI_API_KEY" = false) (hv : pyStrip req.code ≠ "")
    (ha : w.acquire = .error m) :
    analyze_code w req =
      ([.checkKeys, .validate, .acquire], .err 500 ("Analysis failed: " ++ m)) := by
  simp [analyze_code, analyze_pipeline, run_security_analysis, check_api_keys,
        validate_request, hk, hv, ha, strOfErr]

theorem analyze_eq_of_acquire_cancelled (w : World) (req : AnalyzeRequest)
    (hk : envFalsy w.env "GEMINI_API_KEY" = false) (hv : pyStrip req.code ≠ "")
    (ha : w.acquire = .cancelled) :
    analyze_code w req = ([.checkKeys, .validate, .acquire], .cancelled) := by
  simp [analyze_code, analyze_pipeline, run_security_analysis, check_api_keys,
        validate_request, hk, hv, ha]

theorem analyze_eq_of_invoke_error (w : World) (req : AnalyzeRequest) (m : String)
    (hk : envFalsy w.env "GEMINI_API_KEY" = false) (hv : pyStrip req.code ≠ "")
    (ha : w.acquire = .ok ()) (hi : w.invoke = .error m) :
    analyze_code w req =
      ([.checkKeys, .validate, .acquire, .build, .invoke, .release],
       .err 500 ("Analysis failed: " ++ m)) := by
  simp [analyze_code, analyze_pipeline, run_security_analysis, check_api_keys,
        validate_request, hk, hv, ha, hi, strOfErr]

theorem analyze_eq_of_invoke_cancelled (w : World) (req : AnalyzeRequest)
    (hk : envFalsy w.env "GEMINI_API_KEY" = false) (hv : pyStrip req.code ≠ "")
    (ha : w.acquire = .ok ()) (hi : w.invoke = .cancelled) :
    analyze_code w req =
      ([.checkKeys, .validate, .acquire, .build, .invoke, .release], .cancelled) := by
  simp [analyze_code, analyze_pipeline, run_security_analysis, check_api_keys,
        validate_request, hk, hv, ha, hi]

theorem analyze_eq_of_bad_output (w : World) (req : AnalyzeRequest) (raw : RawReport) (m : String)
    (hk : envFalsy w.env "GEMINI_API_KEY" = false) (hv : pyStrip req.code ≠ "")
    (ha : w.acquire = .ok ()) (hi : w.invoke = .ok raw) (hr : validateReport raw = .error m) :
    analyze_code w req =
      ([.checkKeys, .validate, .acquire, .build, .invoke, .validateOut, .release],
       .err 500 ("Analysis failed: " ++ m)) := by
  simp [analyze_code, analyze_pipeline, run_security_analysis, check_api_keys,
        validate_request, hk, hv, ha, hi, hr, strOfErr]

theorem analyze_eq_of_success (w : World) (req : AnalyzeRequest) (raw : RawReport)
    (rep : SecurityReport)
    (hk : envFalsy w.env "GEMINI_API_KEY" = false) (hv : pyStrip req.code ≠ "")
    (ha : w.acquire = .ok ()) (hi : w.invoke = .ok raw) (hr : validateReport raw = .ok rep) :
    analyze_code w req = (canonicalOrder, .ok (format_analysis_response req.code rep)) := by
  simp [analyze_code, analyze_pipeline, run_security_analysis, check_api_keys,
        validate_request, canonicalOrder, hk, hv, ha, hi, hr]

/-- Trace-only forms of the branch lemmas: the recorded step list on
each path, with the outcome component projected away. -/
theorem trace_eq_of_key_falsy (w : World) (req : AnalyzeRequest)
    (hk : envFalsy w.env "GEMINI_API_KEY" = true) :
    (analyze_code w req).1 = [.checkKeys] := by
  rw [analyze_eq_of_key_falsy w req hk]

theorem trace_eq_of_blank_code (w : World) (req : AnalyzeRequest)
    (hk : envFalsy w.env "GEMINI_API_KEY" = false) (hv : pyStrip req.code = "") :
    (analyze_code w req).1 = [.checkKeys, .validate] := by
  rw [analyze_eq_of_blank_code w req hk hv]

theorem trace_eq_of_acquire_error (w : World) (req : AnalyzeRequest) (m : String)
    (hk : envFalsy w.env "GEMINI_API_KEY" = false) (hv : pyStrip req.code ≠ "")
    (ha : w.acquire = .error m) :
    (analyze_code w req).1 = [.checkKeys, .validate, .acquire] := by
  rw [analyze_eq_of_acquire_error w req m hk hv ha]

theorem trace_eq_of_acquire_cancelled (w : World) (req : AnalyzeRequest)
    (hk : envFalsy w.env "GEMINI_API_KEY" = false) (hv : pyStrip req.code ≠ "")
    (ha : w.acquire = .cancelled) :
    (analyze_code w req).1 = [.checkKeys, .validate, .acquire] := by
  rw [analyze_eq_of_acquire_cancelled w req hk hv ha]

theorem trace_eq_of_invoke_error (w : World) (req : AnalyzeRequest) (m : String)
    (hk : envFalsy w.env "GEMINI_API_KEY" = false) (hv : pyStrip req.code ≠ "")
    (ha : w.acquire = .ok ()) (hi : w.invoke = .error m) :
    (analyze_code w req).1 = [.checkKeys, .validate, .acquire, .build, .invoke, .release] := by
  rw [analyze_eq_of_invoke_error w req m hk hv ha hi]

theorem trace_eq_of_invoke_cancelled (w : World) (req : AnalyzeRequest)
    (hk : envFalsy w.env "GEMINI_API_KEY" = false) (hv : pyStrip req.code ≠ "")
    (ha : w.acquire = .ok ()) (hi : w.invoke = .cancelled) :
    (analyze_code w req).1 = [.checkKeys, .validate, .acquire, .build, .invoke, .release] := by
  rw [analyze_eq_of_invoke_cancelled w req hk hv ha hi]

theorem trace_eq_of_bad_output (w : World) (req : AnalyzeRequest) (raw : RawReport) (m : String)
    (hk : envFalsy w.env "GEMINI_API_KEY" = false) (hv : pyStrip req.code ≠ "")
    (ha : w.acquire = .ok ()) (hi : w.invoke = .ok raw) (hr : validateReport raw = .error m) :
    (analyze_code w req).1 =
      [.checkKeys, .validate, .acquire, .build, .invoke, .validateOut, .release] := by
  rw [analyze_eq_of_bad_output w req raw m hk hv ha hi hr]

theorem trace_eq_of_success (w : World) (req : AnalyzeRequest) (raw : RawReport)
    (rep : SecurityReport)
    (hk : envFalsy w.env "GEMINI_API_KEY" = false) (hv : pyStrip req.code ≠ "")
    (ha : w.acquire = .ok ()) (hi : w.invoke = .ok raw) (hr : validateReport raw = .ok rep) :
    (analyze_code w req).1 = canonicalOrder := by
  rw [analyze_eq_of_success w req raw rep hk hv ha hi hr]

/-- A request succeeds only on the full path: the environment check and
request validation passed, the tool server was acquired, the backend's
raw reply validated, and the returned report is the enriched form of
the validated one. -/
theorem analyze_ok_inversion (w : World) (req : AnalyzeRequest) (r : SecurityReport)
    (h : (analyze_code w req).2 = Outcome.ok r) :
    ∃ raw rep, w.invoke = StepOutcome.ok raw ∧ validateReport raw = Except.ok rep
      ∧ r = format_analysis_response req.code rep
      ∧ w.acquire = StepOutcome.ok ()
      ∧ envFalsy w.env "GEMINI_API_KEY" = false ∧ pyStrip req.code ≠ "" := by
  by_cases hk : envFalsy w.env "GEMINI_API_KEY" = true
  · rw [analyze_eq_of_key_falsy w req hk] at h
    exact absurd h (by simp)
  · have hk' : envFalsy w.env "GEMINI_API_KEY" = false := by
      simpa using hk
    by_cases hv : pyStrip req.code = ""
    · rw [analyze_eq_of_blank_code w req hk' hv] at h
      exact absurd h (by simp)
    · cases ha : w.acquire with
      | error m =>
        rw [analyze_eq_of_acquire_error w req m hk' hv ha] at h
        exact absurd h (by simp)
      | cancelled =>
        rw [analyze_eq_of_acquire_cancelled w req hk' hv ha] at h
        exact absurd h (by simp)
      | ok u =>
        cases u
        cases hi : w.invoke with
        | error m =>
          rw [analyze_eq_of_invoke_error w req m hk' hv ha hi] at h
          exact absurd h (by simp)
        | cancelled =>
          rw [analyze_eq_of_invoke_cancelled w req hk' hv ha hi] at h
          exact absurd h (by simp)
        | ok raw =>
          cases hr : validateReport raw with
          | error m =>
            rw [analyze_eq_of_bad_output w req raw m hk' hv ha hi hr] at h
            exact absurd h (by simp)
          | ok rep =>
            rw [analyze_eq_of_success w req raw rep hk' hv ha hi hr] at h
            simp only [Outcome.ok.injEq] at h
            exact ⟨raw, rep, rfl, hr, h.symm, rfl, hk', hv⟩

/-- Pydantic accepts an issue only when no declared field is absent. -/
theorem validateIssue_ok_not_missing (i : RawIssue) (v : SecurityIssue)
    (h : validateIssue i = .ok v) : rawIssueMissing i = false := by
  obtain ⟨t, d, c, f, s, sev⟩ := i
  cases t <;> cases d <;> cases c <;> cases f <;> cases s <;> cases sev <;>
    simp_all [validateIssue, rawIssueMissing]

/-- Pydantic accepts a list of issues only when none has an absent field. -/
theorem validateIssues_ok_not_missing (is : List RawIssue) (vs : List SecurityIssue)
    (h : validateIssues is = .ok vs) : is.any rawIssueMissing = false := by
  induction is generalizing vs with
  | nil => simp
  | cons i rest ih =>
    unfold validateIssues at h
    cases hv : validateIssue i with
    | error m => rw [hv] at h; simp at h
    | ok v =>
      rw [hv] at h
      cases hr : validateIssues rest with
      | error m => rw [hr] at h; simp at h
      | ok vs' =>
        rw [hr] at h
        simp [List.any_cons, validateIssue_ok_not_missing i v hv, ih vs' hr]

/-- Pydantic never accepts a reply with an absent mandatory field. -/
theorem validateReport_missing_not_ok (raw : RawReport) (h : rawReportMissing raw = true) :
    ∀ rep, validateReport raw ≠ Except.ok rep := by
  intro rep hok
  obtain ⟨s, is⟩ := raw
  cases s with
  | none => simp [validateReport] at hok
  | some sv =>
    cases is with
    | none => simp [validateReport] at hok
    | some isv =>
      simp only [rawReportMissing, Option.isNone_some, Bool.false_or, Option.getD_some] at h
      cases hr : validateIssues isv with
      | error m => simp [validateReport, hr] at hok
      | ok vs =>
        rw [validateIssues_ok_not_missing isv vs hr] at h
        exact absurd h (by simp)

/-- An `Except` that is not a success is an error. -/
theorem except_not_ok_is_error (x : Except String SecurityReport)
    (h : ∀ rep, x ≠ Except.ok rep) : ∃ m, x = Except.error m := by
  cases x with
  | error m => exact ⟨m, rfl⟩
  | ok rep => exact absurd rfl (h rep)

/-- C1: for a whitespace-only `code` field the claim says the endpoint
returns an `InvalidInput` failure with HTTP status 400.  On the code,
`validate_request` does raise `HTTPException(400)` and neither tool
acquisition nor backend invocation is attempted, but the blanket
`except Exception` of `analyze_code` catches that `HTTPException` and
re-raises it as HTTP 500 with detail
`"Analysis failed: 400: No code provided for analysis"`: the caller
sees 500, not 400.  This theorem evaluates the pipeline at the failing
input (key configured, `code = "   "`). -/
theorem C1_whitespace_code_yields_500_not_400 :
    analyze_code wOK { code := "   " } =
      ([Ev.checkKeys, Ev.validate],
       Outcome.err 500 "Analysis failed: 400: No code provided for analysis")
    ∧ Ev.acquire ∉ (analyze_code wOK { code := "   " }).1
    ∧ Ev.invoke ∉ (analyze_code wOK { code := "   " }).1 := by
  decide

/-- C2: the claim says every issue in a successful response has
`cvss_score` in [0.0, 10.0] and `severity` among the four enumerated
values, any violating reply being rejected as an
`OutputValidationError`.  The pydantic model `SecurityIssue` declares
`cvss_score: float` and `severity: str` with descriptive text only —
no `ge`/`le` bound, no enum — so a reply carrying score 11.0 and
severity "informational" passes validation and is returned to the
caller unchanged. -/
theorem C2_out_of_range_reply_passed_through :
    (analyze_code { wOK with invoke := .ok outOfRangeReportRaw } { code := "print(1)" }).2 =
      Outcome.ok
        { summary := "bad reply (analysis of 8 characters of code)",
          issues := [{ title := "Weird finding", description := "desc", code := "x",
                       fix := "y", cvss_score := 11, severity := "informational" }] }
    ∧ (10 : ℚ) < 11
    ∧ "informational" ∉ (["critical", "high", "medium", "low"] : List String) := by
  decide

/-- C5: when the `GEMINI_API_KEY` variable is absent from the
environment at request time, `check_api_keys` fails first: the request
returns a configuration failure and the trace shows that neither the
tool server nor the backend was contacted (no acquire, no invoke). -/
theorem C5_missing_credential_short_circuits (w : World) (req : AnalyzeRequest)
    (h : w.env "GEMINI_API_KEY" = none) :
    analyze_code w req =
      ([Ev.checkKeys], Outcome.err 500 "Analysis failed: 500: Gemini API key not configured")
    ∧ Ev.acquire ∉ (analyze_code w req).1
    ∧ Ev.invoke ∉ (analyze_code w req).1 := by
  have hk : envFalsy w.env "GEMINI_API_KEY" = true := by simp [envFalsy, h]
  have he := analyze_eq_of_key_falsy w req hk
  refine ⟨?_, ?_, ?_⟩ <;> rw [he] <;> decide

/-- C5 witness: the configuration short-circuit at a concrete world
with the key unset. -/
theorem C5_missing_credential_short_circuits_witness :
    analyze_code wNoKey { code := "print(1)" } =
      ([Ev.checkKeys], Outcome.err 500 "Analysis failed: 500: Gemini API key not configured")
    ∧ Ev.acquire ∉ (analyze_code wNoKey { code := "print(1)" }).1
    ∧ Ev.invoke ∉ (analyze_code wNoKey { code := "print(1)" }).1 :=
  C5_missing_credential_short_circuits wNoKey { code := "print(1)" } rfl

/-- C7: every failure surfaced to the caller is one uniform error:
HTTP status 500 with detail the generic text "Analysis failed: "
followed by the original exception's message; no other failure shape
reaches the caller. -/
theorem C7_uniform_failure_surface (w : World) (req : AnalyzeRequest) (s : Nat) (d : String)
    (h : (analyze_code w req).2 = Outcome.err s d) :
    s = 500
    ∧ ∃ e, (analyze_pipeline w req).2 = PipeRes.error e
        ∧ d = "Analysis failed: " ++ strOfErr e := by
  unfold analyze_code at h
  rcases hp : analyze_pipeline w req with ⟨tr, res⟩
  rw [hp] at h
  cases res with
  | ok r => simp at h
  | cancelled => simp at h
  | error e =>
    simp only [Outcome.err.injEq] at h
    exact ⟨h.1.symm, e, rfl, h.2.symm⟩

/-- C7 witness: the uniform error at a concrete failing request
(missing credential). -/
theorem C7_uniform_failure_surface_witness :
    (500 : Nat) = 500
    ∧ ∃ e, (analyze_pipeline wNoKey { code := "x" }).2 = PipeRes.error e
        ∧ "Analysis failed: 500: Gemini API key not configured" = "Analysis failed: " ++ strOfErr e :=
  C7_uniform_failure_surface wNoKey { code := "x" } 500
    "Analysis failed: 500: Gemini API key not configured" rfl

/-- C10 counterexample: the claim says the credential check fails if
and only if `GEMINI_API_KEY` is unset.  `check_api_keys` tests Python
truthiness (`not os.getenv(...)`), so an environment where the
variable is set to the empty string also fails the check, refuting the
"only if unset" direction. -/
theorem C10_counterexample_empty_string_key :
    check_api_keys envEmptyKey =
      Except.error (PyErr.http 500 "Gemini API key not configured")
    ∧ envEmptyKey "GEMINI_API_KEY" = some "" := by
  exact ⟨rfl, by decide⟩

/-- C10 amended: `check_api_keys` fails if and only if
`GEMINI_API_KEY` is unset or set to the empty string in the
environment read at request time; and the check is independent of the
key the process-wide client captured at import time — in particular
there are import/request environments where the check passes although
`gemini_client` was constructed with no key at all. -/
theorem C10_check_iff_key_falsy :
    (∀ env : Env,
       (∃ e, check_api_keys env = Except.error e)
         ↔ (env "GEMINI_API_KEY" = none ∨ env "GEMINI_API_KEY" = some ""))
    ∧ ∃ importEnv reqEnv : Env,
        (gemini_client importEnv).api_key = none ∧ check_api_keys reqEnv = Except.ok () := by
  constructor
  · intro env
    unfold check_api_keys envFalsy
    cases henv : env "GEMINI_API_KEY" with
    | none => simp
    | some v =>
      by_cases hv : v = ""
      · subst hv; simp
      · simp [hv]
  · refine ⟨envNoKey, envWithKey, rfl, ?_⟩
    rfl

/-- C3: the tool-server handle is released exactly once on every path
on which it was acquired: when acquisition can succeed, any trace that
entered the tool scope contains exactly one release — covering
normal return, backend-invocation failure, output-validation failure
and cancellation mid-flight — and no trace ever contains two. -/
theorem C3_tool_scope_released_exactly_once (w : World) (req : AnalyzeRequest)
    (h : w.acquire = StepOutcome.ok ()) :
    (Ev.acquire ∈ (analyze_code w req).1 → (analyze_code w req).1.count Ev.release = 1)
    ∧ (analyze_code w req).1.count Ev.release ≤ 1 := by
  by_cases hk : envFalsy w.env "GEMINI_API_KEY" = true
  · rw [trace_eq_of_key_falsy w req hk]; decide
  · have hk' : envFalsy w.env "GEMINI_API_KEY" = false := by simpa using hk
    by_cases hv : pyStrip req.code = ""
    · rw [trace_eq_of_blank_code w req hk' hv]; decide
    · cases hi : w.invoke with
      | error m => rw [trace_eq_of_invoke_error w req m hk' hv h hi]; decide
      | cancelled => rw [trace_eq_of_invoke_cancelled w req hk' hv h hi]; decide
      | ok raw =>
        cases hr : validateReport raw with
        | error m => rw [trace_eq_of_bad_output w req raw m hk' hv h hi hr]; decide
        | ok rep => rw [trace_eq_of_success w req raw rep hk' hv h hi hr]; decide

/-- C3 witness: release happens exactly once on a concrete successful
request. -/
theorem C3_tool_scope_released_exactly_once_witness :
    (Ev.acquire ∈ (analyze_code wOK { code := "print(1)" }).1 →
       (analyze_code wOK { code := "print(1)" }).1.count Ev.release = 1)
    ∧ (analyze_code wOK { code := "print(1)" }).1.count Ev.release ≤ 1 :=
  C3_tool_scope_released_exactly_once wOK { code := "print(1)" } rfl

/-- C4 counterexample: the claim fixes the order
(6) validate output, (7) enrich summary, (8) release tool scope.  On a
concrete fully-successful request the recorded trace is
`canonicalOrder`, in which the release of the tool scope (the exit of
the `async with` inside `run_security_analysis`) occurs strictly
before the enrichment performed by `format_analysis_response` — the
opposite of the claimed order of steps 7 and 8. -/
theorem C4_counterexample_release_precedes_enrich :
    (analyze_code wOK { code := "print(1)" }).1 = canonicalOrder
    ∧ (analyze_code wOK { code := "print(1)" }).1.indexOf Ev.release <
        (analyze_code wOK { code := "print(1)" }).1.indexOf Ev.enrich := by
  decide

/-- C4 amended: within every request the performed steps are a
subsequence of the fixed order (1) check credentials, (2) validate
request, (3) acquire tool scope, (4) build agent, (5) invoke backend,
(6) validate output, (7) release tool scope, (8) enrich summary —
enrichment happens after the tool scope is released, not before;
the backend is never invoked unless the credential check and request
validation succeeded, and whenever the agent was built (steps 4–6
ran), the tool scope is released even if those steps fail. -/
theorem C4_fixed_step_order (w : World) (req : AnalyzeRequest) :
    (analyze_code w req).1.Sublist canonicalOrder
    ∧ (Ev.invoke ∈ (analyze_code w req).1 →
        envFalsy w.env "GEMINI_API_KEY" = false ∧ pyStrip req.code ≠ "")
    ∧ (Ev.build ∈ (analyze_code w req).1 → Ev.release ∈ (analyze_code w req).1) := by
  by_cases hk : envFalsy w.env "GEMINI_API_KEY" = true
  · rw [trace_eq_of_key_falsy w req hk]
    exact ⟨by decide, fun hmem => absurd hmem (by decide), by decide⟩
  · have hk' : envFalsy w.env "GEMINI_API_KEY" = false := by simpa using hk
    by_cases hv : pyStrip req.code = ""
    · rw [trace_eq_of_blank_code w req hk' hv]
      exact ⟨by decide, fun hmem => absurd hmem (by decide), by decide⟩
    · cases ha : w.acquire with
      | error m =>
        rw [trace_eq_of_acquire_error w req m hk' hv ha]
        exact ⟨by decide, fun hmem => absurd hmem (by decide), by decide⟩
      | cancelled =>
        rw [trace_eq_of_acquire_cancelled w req hk' hv ha]
        exact ⟨by decide, fun hmem => absurd hmem (by decide), by decide⟩
      | ok u =>
        cases u
        cases hi : w.invoke with
        | error m =>
          rw [trace_eq_of_invoke_error w req m hk' hv ha hi]
          exact ⟨by decide, fun _ => ⟨hk', hv⟩, by decide⟩
        | cancelled =>
          rw [trace_eq_of_invoke_cancelled w req hk' hv ha hi]
          exact ⟨by decide, fun _ => ⟨hk', hv⟩, by decide⟩
        | ok raw =>
          cases hr : validateReport raw with
          | error m =>
            rw [trace_eq_of_bad_output w req raw m hk' hv ha hi hr]
            exact ⟨by decide, fun _ => ⟨hk', hv⟩, by decide⟩
          | ok rep =>
            rw [trace_eq_of_success w req raw rep hk' hv ha hi hr]
            exact ⟨by decide, fun _ => ⟨hk', hv⟩, by decide⟩

/-- C4 witness: the amended order on a concrete successful request. -/
theorem C4_fixed_step_order_witness :
    (analyze_code wOK { code := "print(1)" }).1.Sublist canonicalOrder
    ∧ (Ev.invoke ∈ (analyze_code wOK { code := "print(1)" }).1 →
        envFalsy wOK.env "GEMINI_API_KEY" = false ∧ pyStrip ("print(1)" : String) ≠ "")
    ∧ (Ev.build ∈ (analyze_code wOK { code := "print(1)" }).1 →
        Ev.release ∈ (analyze_code wOK { code := "print(1)" }).1) :=
  C4_fixed_step_order wOK { code := "print(1)" }

/-- C6: a backend reply with any mandatory field absent — a field of
`SecurityReport` itself or of any contained issue — is rejected by
validation, and the request can never return a report built from such
a reply: no partially-filled, default-filled report exists. -/
theorem C6_missing_field_is_hard_failure (w : World) (req : AnalyzeRequest) (raw : RawReport)
    (hi : w.invoke = StepOutcome.ok raw) (hm : rawReportMissing raw = true) :
    (∃ m, validateReport raw = Except.error m)
    ∧ ∀ r, (analyze_code w req).2 ≠ Outcome.ok r := by
  refine ⟨except_not_ok_is_error _ (validateReport_missing_not_ok raw hm), ?_⟩
  intro r hr
  obtain ⟨raw', rep, hi', hv', -, -, -, -⟩ := analyze_ok_inversion w req r hr
  rw [hi] at hi'
  injection hi' with e
  subst e
  exact validateReport_missing_not_ok raw hm rep hv'

/-- C6 witness: a reply whose issue lacks its `fix` field is rejected
at a concrete world. -/
theorem C6_missing_field_is_hard_failure_witness :
    (∃ m, validateReport missingFixReportRaw = Except.error m)
    ∧ ∀ r, (analyze_code { wOK with invoke := .ok missingFixReportRaw }
              { code := "print(1)" }).2 ≠ Outcome.ok r :=
  C6_missing_field_is_hard_failure { wOK with invoke := .ok missingFixReportRaw }
    { code := "print(1)" } missingFixReportRaw rfl (by decide)

/-- C8: summary enrichment is deterministic (two runs on the same
(length, summary) pair give the same text), `format_analysis_response`
never alters the issues list, and end to end a successful request
returns exactly the issues of the backend-validated report, unchanged
and in order. -/
theorem C8_enrich_deterministic_issues_preserved :
    (∀ (n : Nat) (s : String), enhance_summary n s = enhance_summary n s)
    ∧ (∀ (code : String) (rep : SecurityReport),
        (format_analysis_response code rep).issues = rep.issues)
    ∧ (∀ (w : World) (req : AnalyzeRequest) (raw : RawReport) (rep r : SecurityReport),
        w.invoke = StepOutcome.ok raw → validateReport raw = Except.ok rep →
        (analyze_code w req).2 = Outcome.ok r → r.issues = rep.issues) := by
  refine ⟨fun _ _ => rfl, fun _ _ => rfl, ?_⟩
  intro w req raw rep r hi hv h
  obtain ⟨raw', rep', hi', hv', hfmt, -, -, -⟩ := analyze_ok_inversion w req r h
  rw [hi] at hi'
  injection hi' with e
  subst e
  rw [hv] at hv'
  injection hv' with e2
  subst e2
  rw [hfmt]
  rfl

/-- C8 witness: the issues of a concrete successful response are
exactly the backend-validated ones. -/
theorem C8_enrich_deterministic_issues_preserved_witness :
    (format_analysis_response "print(1)" goodReport).issues = goodReport.issues :=
  C8_enrich_deterministic_issues_preserved.2.2 wOK { code := "print(1)" } goodReportRaw
    goodReport (format_analysis_response "print(1)" goodReport) rfl rfl rfl

/-- C9: request validation fails exactly when every character of the
code is whitespace (including the empty string), and no upper bound on
code size exists: for every n there is an accepted request whose code
is longer than n. -/
theorem C9_validate_iff_whitespace_no_size_bound :
    (∀ req : AnalyzeRequest,
       (∃ e, validate_request req = Except.error e) ↔ ∀ c ∈ req.code.toList, pyIsSpace c)
    ∧ (∀ n : Nat, ∃ req : AnalyzeRequest,
         n ≤ req.code.length ∧ validate_request req = Except.ok ()) := by
  constructor
  · intro req
    constructor
    · rintro ⟨e, he⟩
      by_cases hv : pyStrip req.code = ""
      · exact (pyStrip_eq_empty_iff req.code).mp hv
      · unfold validate_request at he
        rw [if_neg hv] at he
        exact absurd he (by simp)
    · intro h
      unfold validate_request
      rw [if_pos ((pyStrip_eq_empty_iff req.code).mpr h)]
      exact ⟨_, rfl⟩
  · intro n
    refine ⟨{ code := String.mk (List.replicate (n + 1) 'a') }, ?_, ?_⟩
    · show n ≤ (String.mk (List.replicate (n + 1) 'a')).length
      have hlen : (String.mk (List.replicate (n + 1) 'a')).length = n + 1 :=
        List.length_replicate (n + 1) 'a'
      omega
    · unfold validate_request
      rw [if_neg ?hne]
      case hne =>
        intro hempty
        have hall := (pyStrip_eq_empty_iff (String.mk (List.replicate (n + 1) 'a'))).mp hempty
        have hsp : pyIsSpace 'a' = true :=
          hall 'a' (List.mem_replicate.mpr ⟨Nat.succ_ne_zero n, rfl⟩)
        exact absurd hsp (by decide)

end CyberSec
